import Mathlib

/-!
Shallow embedding of `build.py`, a command-line wrapper that assembles and
launches an external GDB build script for Android.

Modelling conventions:
* The filesystem's `os.path.realpath` canonicalization is an abstract
  parameter `realpath : String → String` (its behaviour depends on the
  actual filesystem and symlinks, which the script only delegates to).
* The process environment `os.environ` / `os.getenv` is a function
  `String → Option String`.
* `sys.exit(msg)` and uncaught exceptions (both of which terminate the
  process with a non-zero status before any subprocess is spawned) are
  modelled with `Except String` / the `fatalExit` constructor.
* `argparse` behaviour is modelled at the level of already-tokenized
  option values: each flag is an `Option String`, plus a Bool for
  `--help`.  Crucially, the `default=get_default_package_dir()` argument
  of `add_argument` is evaluated eagerly while the parser object is being
  constructed (ordinary Python evaluation order), before any of
  help-printing or choice validation happens; the model reflects this.
-/

set_option autoImplicit false

namespace Build

/-- `s.startswith('/')`, on the character list. -/
def startsWithSlash (s : String) : Bool :=
  match s.data with
  | [] => false
  | c :: _ => c == '/'

/-- `s.endswith('/')`, on the character list. -/
def endsWithSlash (s : String) : Bool :=
  match s.data.getLast? with
  | none => false
  | some c => c == '/'

/-- `os.path.join(a, b)` on POSIX (`posixpath.join`, two components):
if `b` is absolute it replaces `a`; otherwise a `/` separator is inserted
unless `a` is empty or already ends with `/`. -/
def pjoin (a b : String) : String :=
  if startsWithSlash b then b
  else if a = "" ∨ endsWithSlash a then a ++ b
  else a ++ "/" ++ b

/-- A process environment: total map from variable names to optional values. -/
def Env : Type := String → Option String

/-- `os.getenv(key, default)`. -/
def getenvD (env : Env) (key default : String) : String :=
  (env key).getD default

/-- The message passed to `sys.exit` when `ANDROID_BUILD_TOP` is missing. -/
def ANDROID_BUILD_TOP_MSG : String :=
  "ANDROID_BUILD_TOP not set. Cannot continue.\n" ++
  "Please set ANDROID_BUILD_TOP to point to the root of an Android tree."

/-- `android_path(path)` from `build.py`: read `ANDROID_BUILD_TOP` (empty
default), `sys.exit` with a message if it is unset or empty, otherwise
return `os.path.realpath(os.path.join(top, path))`. -/
def android_path (realpath : String → String) (env : Env) (path : String) :
    Except String String :=
  let top := getenvD env "ANDROID_BUILD_TOP" ""
  if top = "" then Except.error ANDROID_BUILD_TOP_MSG
  else Except.ok (realpath (pjoin top path))

/-- `get_default_package_dir()` from `build.py`. -/
def get_default_package_dir (realpath : String → String) (env : Env) :
    Except String String :=
  android_path realpath env "out/ndk"

/-- `get_default_host()` from `build.py`: `sys.platform` dispatching, with a
`RuntimeError` (process-terminating) for unsupported platforms. -/
def get_default_host (platform : String) : Except String String :=
  if platform = "linux" ∨ platform = "linux2" then Except.ok "linux"
  else if platform = "darwin" then Except.ok "darwin"
  else Except.error ("Unsupported host: " ++ platform)

/-- `ALL_TOOLCHAINS` from `build.py`, in source order. -/
def ALL_TOOLCHAINS : List String :=
  ["arm-linux-androideabi", "aarch64-linux-android",
   "mipsel-linux-android", "mips64el-linux-android",
   "x86", "x86_64"]

/-- `toolchain_to_arch(toolchain)` from `build.py`: the dict literal, as an
association-list lookup (`none` models a `KeyError`). -/
def toolchain_to_arch (toolchain : String) : Option String :=
  List.lookup toolchain
    [("arm-linux-androideabi", "arm"), ("aarch64-linux-android", "arm64"),
     ("mipsel-linux-android", "mips"), ("mips64el-linux-android", "mips64"),
     ("x86", "x86"), ("x86_64", "x86_64")]

/-- `sub` is a leading segment of `l` (character-list form of
`str.startswith`). -/
def startsWithL : List Char → List Char → Bool
  | [], _ => true
  | _ :: _, [] => false
  | a :: as, b :: bs => a == b && startsWithL as bs

/-- Python's substring test `sub in s`, on character lists: `sub` occurs
contiguously in `l`. -/
def containsSub (sub : List Char) : List Char → Bool
  | [] => sub.isEmpty
  | c :: cs => startsWithL sub (c :: cs) || containsSub sub cs

/-- `default_api_level(arch)` from `build.py`: `21` when `'64' in arch`,
else `9`. -/
def default_api_level (arch : String) : Nat :=
  if containsSub "64".data arch.data then 21 else 9

/-- `sysroot_path(toolchain)` from `build.py`. -/
def sysroot_path (realpath : String → String) (env : Env) (toolchain : String) :
    Except String String :=
  match toolchain_to_arch toolchain with
  | none => Except.error ("KeyError: " ++ toolchain)
  | some arch =>
    let version := default_api_level arch
    let prebuilt_ndk := "prebuilts/ndk/current"
    let sysroot_subpath :=
      "platforms/android-" ++ toString version ++ "/arch-" ++ arch
    android_path realpath env (pjoin prebuilt_ndk sysroot_subpath)

/-- The `choices` list of the `--host` flag in `ArgParser.__init__`. -/
def HOST_CHOICES : List String := ["darwin", "linux", "windows", "windows64"]

/-- The result of `ArgParser().parse_args()`: the three option values. -/
structure Args where
  host : Option String
  package_dir : String
  toolchain : Option String
  deriving DecidableEq

/-- Outcome of constructing the parser and parsing the command line. -/
inductive ParseResult where
  /-- Parsing succeeded. -/
  | ok (args : Args)
  /-- `--help`: argparse prints the description and flag list and exits 0. -/
  | helpExit
  /-- A value outside a flag's `choices`: usage error, non-zero exit. -/
  | usageError (msg : String)
  /-- `sys.exit(msg)` fired while the parser was being built (the eager
  `default=get_default_package_dir()` evaluation): non-zero exit. -/
  | fatalExit (msg : String)
  deriving DecidableEq

/-- Is the supplied option value inside the flag's `choices` list? -/
def validChoice (v : Option String) (choices : List String) : Bool :=
  match v with
  | none => true
  | some s => choices.contains s

/-- `ArgParser().parse_args()` of `build.py`.  Constructing the parser
evaluates `get_default_package_dir()` for the `--package-dir` default
before anything else; then `--help` handling; then `choices` validation of
`--host` and `--toolchain`. -/
def parse_args (realpath : String → String) (env : Env) (help : Bool)
    (host package_dir toolchain : Option String) : ParseResult :=
  match get_default_package_dir realpath env with
  | Except.error msg => ParseResult.fatalExit msg
  | Except.ok default_pkg =>
    if help then ParseResult.helpExit
    else if !(validChoice host HOST_CHOICES) then
      ParseResult.usageError "argument --host: invalid choice"
    else if !(validChoice toolchain ALL_TOOLCHAINS) then
      ParseResult.usageError "argument --toolchain: invalid choice"
    else ParseResult.ok ⟨host, package_dir.getD default_pkg, toolchain⟩

/-- Lines 113-115 of `build.py`: all toolchains, or the single one named
by `--toolchain`. -/
def select_toolchains (toolchain : Option String) : List String :=
  match toolchain with
  | none => ALL_TOOLCHAINS
  | some tc => [tc]

/-- Line 130 of `build.py`: `"--arch=" + ",".join([toolchain_to_arch(tc)
for tc in toolchains])` (a `KeyError` becomes an error). -/
def arch_arg (toolchains : List String) : Except String String := do
  let archs ← toolchains.mapM (fun tc =>
    match toolchain_to_arch tc with
    | some a => Except.ok a
    | none => Except.error ("KeyError: " ++ tc))
  return "--arch=" ++ String.intercalate "," archs

/-- Everything `main` hands to `subprocess.check_call`: the working
directory it chdir'd into, the printed summary line, the argument vector,
and the child environment. -/
structure Invocation where
  cwd : String
  summary : String
  cmd : List String
  child_env : Env

/-- Lines 104-135 of `build.py` after argument parsing, in source order:
chdir, path resolution, jobs/package-dir arguments, toolchain selection,
host defaulting, child environment (a copy of the parent's with two keys
set), and the final command vector. -/
def mainCore (realpath : String → String) (env : Env) (platform : String)
    (cpu_count : Nat) (args : Args) : Except String Invocation := do
  let cwd ← android_path realpath env "toolchain/gdb"
  let toolchain_path ← android_path realpath env "toolchain"
  let ndk_path ← android_path realpath env "ndk"
  let jobs_arg := "-j" ++ toString cpu_count
  let package_dir_arg := "--package-dir=" ++ args.package_dir
  let toolchains := select_toolchains args.toolchain
  let host ← match args.host with
    | none => get_default_host platform
    | some h => Except.ok h
  let ndk_build_tools_path ← android_path realpath env "ndk/build/tools"
  let build_env : Env := fun k =>
    if k = "NDK_BUILDTOOLS_PATH" then some ndk_build_tools_path
    else if k = "ANDROID_NDK_ROOT" then some ndk_path
    else env k
  let summary := "Building " ++ host ++ " gdb: " ++
    String.intercalate " " toolchains
  let arch ← arch_arg toolchains
  let build_cmd := ["bash", "build-gdb.sh",
    "--toolchain-src-dir=" ++ toolchain_path,
    "--ndk-dir=" ++ ndk_path, "--verbose", arch, package_dir_arg, jobs_arg]
  return ⟨cwd, summary, build_cmd, build_env⟩

/-- Observable outcome of one invocation of the tool. -/
inductive MainResult where
  /-- The assembled subprocess invocation is executed. -/
  | run (inv : Invocation)
  /-- Help text printed, exit status 0, no subprocess. -/
  | helpExit
  /-- argparse usage error, non-zero exit, no subprocess. -/
  | usageError (msg : String)
  /-- `sys.exit`/uncaught exception, non-zero exit, no subprocess. -/
  | fatalExit (msg : String)

/-- `main()` of `build.py`. -/
def main (realpath : String → String) (env : Env) (platform : String)
    (cpu_count : Nat) (help : Bool)
    (host package_dir toolchain : Option String) : MainResult :=
  match parse_args realpath env help host package_dir toolchain with
  | ParseResult.fatalExit m => MainResult.fatalExit m
  | ParseResult.helpExit => MainResult.helpExit
  | ParseResult.usageError m => MainResult.usageError m
  | ParseResult.ok args =>
    match mainCore realpath env platform cpu_count args with
    | Except.error m => MainResult.fatalExit m
    | Except.ok inv => MainResult.run inv

/-- The invocation actually launched, if any. -/
def runInv : MainResult → Option Invocation
  | MainResult.run inv => some inv
  | _ => none

/-- The argument vector of the launched subprocess, if one is launched. -/
def mainCmd (realpath : String → String) (env : Env) (platform : String)
    (cpu_count : Nat) (help : Bool)
    (host package_dir toolchain : Option String) : Option (List String) :=
  (runInv (main realpath env platform cpu_count help host package_dir
    toolchain)).map Invocation.cmd

/-- The working directory of the launched subprocess, if one is launched. -/
def mainCwd (realpath : String → String) (env : Env) (platform : String)
    (cpu_count : Nat) (help : Bool)
    (host package_dir toolchain : Option String) : Option String :=
  (runInv (main realpath env platform cpu_count help host package_dir
    toolchain)).map Invocation.cwd

/-- The launched subprocess's environment, looked up at key `k`. -/
def mainEnvAt (realpath : String → String) (env : Env) (platform : String)
    (cpu_count : Nat) (help : Bool)
    (host package_dir toolchain : Option String) (k : String) :
    Option (Option String) :=
  (runInv (main realpath env platform cpu_count help host package_dir
    toolchain)).map (fun inv => inv.child_env k)

/-- Environment with no variables set. -/
def envNone : Env := fun _ => none

/-- Environment with only `ANDROID_BUILD_TOP=/src`. -/
def envSrc : Env :=
  fun k => if k = "ANDROID_BUILD_TOP" then some "/src" else none

/-- Environment with `ANDROID_BUILD_TOP=/src` and `HOME=/home/user`. -/
def envHome : Env :=
  fun k =>
    if k = "ANDROID_BUILD_TOP" then some "/src"
    else if k = "HOME" then some "/home/user" else none

/-! ### Helper lemmas -/

theorem ok_bind {α β : Type} (a : α) (f : α → Except String β) :
    (Except.ok a >>= f : Except String β) = f a := rfl

theorem error_bind {α β : Type} (e : String) (f : α → Except String β) :
    (Except.error e >>= f : Except String β) = Except.error e := rfl

theorem pure_ok {α : Type} (a : α) : (pure a : Except String α) = Except.ok a :=
  rfl

/-- When the root variable is set to a non-empty value, `android_path`
returns the canonicalized join of the root with its argument. -/
theorem android_path_ok {env : Env} {r : String}
    (henv : env "ANDROID_BUILD_TOP" = some r) (hr : r ≠ "")
    (realpath : String → String) (p : String) :
    android_path realpath env p = Except.ok (realpath (pjoin r p)) := by
  simp [android_path, getenvD, henv, hr]

/-- `startsWithL sub l` decides whether `l` begins with `sub`. -/
theorem startsWithL_iff (sub l : List Char) :
    startsWithL sub l = true ↔ ∃ q, l = sub ++ q := by
  induction sub generalizing l with
  | nil => simp [startsWithL]
  | cons a as ih =>
    cases l with
    | nil =>
      simp [startsWithL]
    | cons b bs =>
      simp only [startsWithL, Bool.and_eq_true, beq_iff_eq, ih,
        List.cons_append]
      constructor
      · rintro ⟨rfl, q, rfl⟩
        exact ⟨q, rfl⟩
      · rintro ⟨q, h⟩
        injection h with h1 h2
        exact ⟨h1.symm, q, h2⟩

/-- `containsSub sub l` decides whether `sub` occurs contiguously in `l`
(Python's `sub in s`). -/
theorem containsSub_iff (sub l : List Char) :
    containsSub sub l = true ↔ ∃ p q, l = p ++ (sub ++ q) := by
  induction l with
  | nil =>
    simp only [containsSub, List.isEmpty_iff]
    constructor
    · intro h
      exact ⟨[], [], by simp [h]⟩
    · rintro ⟨p, q, h⟩
      rcases List.append_eq_nil.mp h.symm with ⟨rfl, h2⟩
      rcases List.append_eq_nil.mp h2 with ⟨rfl, rfl⟩
      rfl
  | cons c cs ih =>
    simp only [containsSub, Bool.or_eq_true, startsWithL_iff, ih]
    constructor
    · rintro (⟨q, h⟩ | ⟨p, q, h⟩)
      · exact ⟨[], q, by simpa using h⟩
      · exact ⟨c :: p, q, by simp [h]⟩
    · rintro ⟨p, q, h⟩
      cases p with
      | nil => exact Or.inl ⟨q, by simpa using h⟩
      | cons x xs =>
        simp only [List.cons_append] at h
        injection h with h1 h2
        exact Or.inr ⟨xs, q, h2⟩

theorem arch_arg_all : arch_arg ALL_TOOLCHAINS =
    Except.ok "--arch=arm,arm64,mips,mips64,x86,x86_64" := rfl

/-- Successful parse: root set, `--help` absent, both `choices` checks
pass. -/
theorem parse_args_ok {env : Env} {r : String}
    (henv : env "ANDROID_BUILD_TOP" = some r) (hr : r ≠ "")
    (realpath : String → String) (host package_dir toolchain : Option String)
    (hhost : validChoice host HOST_CHOICES = true)
    (htc : validChoice toolchain ALL_TOOLCHAINS = true) :
    parse_args realpath env false host package_dir toolchain =
      ParseResult.ok
        ⟨host, package_dir.getD (realpath (pjoin r "out/ndk")), toolchain⟩ := by
  simp [parse_args, get_default_package_dir, android_path_ok henv hr,
    hhost, htc]

/-- Full reduction of the post-parse part of `main` when the root is set,
the host is explicit, and all toolchains are selected. -/
theorem mainCore_ok {env : Env} {r : String}
    (henv : env "ANDROID_BUILD_TOP" = some r) (hr : r ≠ "")
    (realpath : String → String) (platform : String) (cpu_count : Nat)
    (hostv pd : String) :
    mainCore realpath env platform cpu_count ⟨some hostv, pd, none⟩ =
      Except.ok
        ⟨realpath (pjoin r "toolchain/gdb"),
         "Building " ++ hostv ++ " gdb: " ++
           String.intercalate " " ALL_TOOLCHAINS,
         ["bash", "build-gdb.sh",
          "--toolchain-src-dir=" ++ realpath (pjoin r "toolchain"),
          "--ndk-dir=" ++ realpath (pjoin r "ndk"), "--verbose",
          "--arch=arm,arm64,mips,mips64,x86,x86_64",
          "--package-dir=" ++ pd, "-j" ++ toString cpu_count],
         fun k =>
           if k = "NDK_BUILDTOOLS_PATH" then
             some (realpath (pjoin r "ndk/build/tools"))
           else if k = "ANDROID_NDK_ROOT" then
             some (realpath (pjoin r "ndk"))
           else env k⟩ := by
  simp [mainCore, android_path_ok henv hr, select_toolchains, ok_bind,
    arch_arg_all, pure_ok]

/-- Full reduction of `main` when the root is set, the host is an explicit
valid choice, `--toolchain` is absent, and `--help` is absent. -/
theorem main_run {env : Env} {r : String}
    (henv : env "ANDROID_BUILD_TOP" = some r) (hr : r ≠ "")
    (realpath : String → String) (platform : String) (cpu_count : Nat)
    (hostv : String) (package_dir : Option String)
    (hhost : validChoice (some hostv) HOST_CHOICES = true) :
    main realpath env platform cpu_count false (some hostv) package_dir
        none =
      MainResult.run
        ⟨realpath (pjoin r "toolchain/gdb"),
         "Building " ++ hostv ++ " gdb: " ++
           String.intercalate " " ALL_TOOLCHAINS,
         ["bash", "build-gdb.sh",
          "--toolchain-src-dir=" ++ realpath (pjoin r "toolchain"),
          "--ndk-dir=" ++ realpath (pjoin r "ndk"), "--verbose",
          "--arch=arm,arm64,mips,mips64,x86,x86_64",
          "--package-dir=" ++
            package_dir.getD (realpath (pjoin r "out/ndk")),
          "-j" ++ toString cpu_count],
         fun k =>
           if k = "NDK_BUILDTOOLS_PATH" then
             some (realpath (pjoin r "ndk/build/tools"))
           else if k = "ANDROID_NDK_ROOT" then
             some (realpath (pjoin r "ndk"))
           else env k⟩ := by
  simp only [main,
    parse_args_ok henv hr realpath (some hostv) package_dir none hhost rfl,
    mainCore_ok henv hr realpath platform cpu_count hostv
      (package_dir.getD (realpath (pjoin r "out/ndk")))]

/-! ### Claims -/

/-- C1: `default_api_level` returns 21 exactly when the architecture tag
contains the substring `64`, and 9 otherwise; in particular `arch64 → 21`,
`arm → 9`, `x86 → 9`, `x86_64 → 21`. -/
theorem c1_default_api_level :
    (∀ arch : String,
      (∃ p q, arch.data = p ++ ("64".data ++ q)) → default_api_level arch = 21)
    ∧ (∀ arch : String,
      (¬ ∃ p q, arch.data = p ++ ("64".data ++ q)) → default_api_level arch = 9)
    ∧ default_api_level "arch64" = 21
    ∧ default_api_level "arm" = 9
    ∧ default_api_level "x86" = 9
    ∧ default_api_level "x86_64" = 21 := by
  refine ⟨?_, ?_, by decide, by decide, by decide, by decide⟩
  · intro arch h
    have hc : containsSub "64".data arch.data = true :=
      (containsSub_iff _ _).mpr h
    simp [default_api_level, hc]
  · intro arch h
    cases hc : containsSub "64".data arch.data with
    | true => exact absurd ((containsSub_iff _ _).mp hc) h
    | false => simp [default_api_level, hc]

/-- C1 witness: the two quantified implications applied at `x86_64` and
`arm`. -/
theorem c1_default_api_level_witness :
    default_api_level "x86_64" = 21 ∧ default_api_level "arm" = 9 := by
  constructor
  · exact c1_default_api_level.1 "x86_64" ⟨"x86_".data, [], by decide⟩
  · exact c1_default_api_level.2.1 "arm"
      (fun h => absurd ((containsSub_iff "64".data "arm".data).mpr h)
        (by decide))

/-- C2: with `--toolchain` unset the assembled `--arch=` argument is the
comma-separated join of all six architecture tags in table order, a list
with no duplicates; with `--toolchain` set it contains exactly that
toolchain's tag, e.g. `arm-linux-androideabi → --arch=arm`. -/
theorem c2_arch_argument :
    arch_arg (select_toolchains none) =
      Except.ok "--arch=arm,arm64,mips,mips64,x86,x86_64"
    ∧ (["arm", "arm64", "mips", "mips64", "x86", "x86_64"] : List String).Nodup
    ∧ (∀ tc ∈ ALL_TOOLCHAINS, ∃ a, toolchain_to_arch tc = some a ∧
        arch_arg (select_toolchains (some tc)) = Except.ok ("--arch=" ++ a))
    ∧ arch_arg (select_toolchains (some "arm-linux-androideabi")) =
        Except.ok "--arch=arm" := by
  refine ⟨rfl, by decide, ?_, rfl⟩
  intro tc htc
  simp only [ALL_TOOLCHAINS, List.mem_cons, List.mem_singleton,
    List.not_mem_nil, or_false] at htc
  rcases htc with rfl | rfl | rfl | rfl | rfl | rfl <;> exact ⟨_, rfl, rfl⟩

/-- C2 witness: the quantified conjunct applied at `x86`. -/
theorem c2_arch_argument_witness :
    arch_arg (select_toolchains (some "x86")) = Except.ok "--arch=x86" := by
  obtain ⟨a, ha, harg⟩ := c2_arch_argument.2.2.1 "x86" (by decide)
  have hx : a = "x86" :=
    (Option.some.inj ((rfl : toolchain_to_arch "x86" = some "x86").symm.trans
      ha)).symm
  rw [hx] at harg
  exact harg

/-- C3: for every root `r` (any realpath behaviour), `sysroot_path`
returns the canonicalized join of `r` with
`prebuilts/ndk/current/platforms/android-LEVEL/arch-ARCH`, with the
architecture tag and API level of the toolchain, for each of the six
toolchains. -/
theorem c3_sysroot_path (realpath : String → String) (env : Env) (r : String)
    (henv : env "ANDROID_BUILD_TOP" = some r) (hr : r ≠ "") :
    sysroot_path realpath env "arm-linux-androideabi" =
      Except.ok (realpath
        (pjoin r "prebuilts/ndk/current/platforms/android-9/arch-arm"))
    ∧ sysroot_path realpath env "aarch64-linux-android" =
      Except.ok (realpath
        (pjoin r "prebuilts/ndk/current/platforms/android-21/arch-arm64"))
    ∧ sysroot_path realpath env "mipsel-linux-android" =
      Except.ok (realpath
        (pjoin r "prebuilts/ndk/current/platforms/android-9/arch-mips"))
    ∧ sysroot_path realpath env "mips64el-linux-android" =
      Except.ok (realpath
        (pjoin r "prebuilts/ndk/current/platforms/android-21/arch-mips64"))
    ∧ sysroot_path realpath env "x86" =
      Except.ok (realpath
        (pjoin r "prebuilts/ndk/current/platforms/android-9/arch-x86"))
    ∧ sysroot_path realpath env "x86_64" =
      Except.ok (realpath
        (pjoin r "prebuilts/ndk/current/platforms/android-21/arch-x86_64")) :=
  ⟨android_path_ok henv hr realpath _, android_path_ok henv hr realpath _,
   android_path_ok henv hr realpath _, android_path_ok henv hr realpath _,
   android_path_ok henv hr realpath _, android_path_ok henv hr realpath _⟩

/-- C3 witness: with root `/src` and identity canonicalization,
`sysroot_path` of `x86_64` is
`/src/prebuilts/ndk/current/platforms/android-21/arch-x86_64`. -/
theorem c3_sysroot_path_witness :
    sysroot_path id envSrc "x86_64" =
      Except.ok "/src/prebuilts/ndk/current/platforms/android-21/arch-x86_64" :=
  (c3_sysroot_path id envSrc "/src" rfl (by decide)).2.2.2.2.2

/-- C4: when `ANDROID_BUILD_TOP` is unset or empty, every invocation
terminates as a fatal exit carrying the human-readable message, whatever
the flags; no `Invocation` (hence no subprocess) is produced. -/
theorem c4_root_unset (realpath : String → String) (env : Env)
    (platform : String) (cpu_count : Nat) (help : Bool)
    (host package_dir toolchain : Option String)
    (h : env "ANDROID_BUILD_TOP" = none ∨ env "ANDROID_BUILD_TOP" = some "") :
    main realpath env platform cpu_count help host package_dir toolchain =
      MainResult.fatalExit ANDROID_BUILD_TOP_MSG := by
  have htop : getenvD env "ANDROID_BUILD_TOP" "" = "" := by
    rcases h with h | h <;> simp [getenvD, h]
  simp [main, parse_args, get_default_package_dir, android_path, htop]

/-- C4 witness: the empty environment, with and without `--help`. -/
theorem c4_root_unset_witness :
    main id envNone "linux" 1 false none none none =
      MainResult.fatalExit ANDROID_BUILD_TOP_MSG
    ∧ main id envNone "darwin" 4 true (some "windows") (some "/tmp/out")
        (some "x86") = MainResult.fatalExit ANDROID_BUILD_TOP_MSG :=
  ⟨c4_root_unset id envNone "linux" 1 false none none none (Or.inl rfl),
   c4_root_unset id envNone "darwin" 4 true (some "windows") (some "/tmp/out")
     (some "x86") (Or.inl rfl)⟩

/-- C5 counterexample: at a concrete invocation the assembled vector's
first element is `bash`, the shell interpreter, not the external script
name `build-gdb.sh` — the claim's fixed order starts one element too
early. -/
theorem c5_counterexample :
    mainCmd id envSrc "linux" 4 false none none none =
      some ["bash", "build-gdb.sh", "--toolchain-src-dir=/src/toolchain",
        "--ndk-dir=/src/ndk", "--verbose",
        "--arch=arm,arm64,mips,mips64,x86,x86_64",
        "--package-dir=/src/out/ndk", "-j4"]
    ∧ (mainCmd id envSrc "linux" 4 false none none none).map List.head? ≠
        some (some "build-gdb.sh") := by
  refine ⟨rfl, fun h => ?_⟩
  have h0 : some (some "bash") = some (some "build-gdb.sh") := h
  exact absurd h0 (by decide)

/-- C5 (amended): the assembled argument vector is, in this fixed order:
the shell interpreter `bash`, the external script name `build-gdb.sh`,
`--toolchain-src-dir=`, `--ndk-dir=`, `--verbose`, `--arch=`,
`--package-dir=`, and `-jN` with `N` the number of processing units. -/
theorem c5_cmd_vector (realpath : String → String) (env : Env)
    (r platform : String) (cpu_count : Nat) (hostv : String)
    (package_dir : Option String)
    (henv : env "ANDROID_BUILD_TOP" = some r) (hr : r ≠ "")
    (hh : hostv ∈ HOST_CHOICES) :
    mainCmd realpath env platform cpu_count false (some hostv) package_dir
        none =
      some ["bash", "build-gdb.sh",
        "--toolchain-src-dir=" ++ realpath (pjoin r "toolchain"),
        "--ndk-dir=" ++ realpath (pjoin r "ndk"), "--verbose",
        "--arch=arm,arm64,mips,mips64,x86,x86_64",
        "--package-dir=" ++ package_dir.getD (realpath (pjoin r "out/ndk")),
        "-j" ++ toString cpu_count] := by
  have hhost : validChoice (some hostv) HOST_CHOICES = true := by
    simp [validChoice, List.contains, List.elem_iff, hh]
  simp [mainCmd,
    main_run henv hr realpath platform cpu_count hostv package_dir hhost,
    runInv]

/-- C5 witness: concrete invocation of the amended vector shape. -/
theorem c5_cmd_vector_witness :
    mainCmd id envSrc "darwin" 8 false (some "windows") (some "/pkg") none =
      some ["bash", "build-gdb.sh", "--toolchain-src-dir=/src/toolchain",
        "--ndk-dir=/src/ndk", "--verbose",
        "--arch=arm,arm64,mips,mips64,x86,x86_64",
        "--package-dir=/pkg", "-j8"] := by
  have h := c5_cmd_vector id envSrc "/src" "darwin" 8 "windows" (some "/pkg")
    rfl (by decide) (by decide)
  exact h

/-- C6 counterexample: with `ANDROID_BUILD_TOP` unset, `--help` does not
exit zero with the help text: the eagerly evaluated
`default=get_default_package_dir()` in `ArgParser.__init__` hits
`sys.exit` first, a non-zero fatal exit. -/
theorem c6_counterexample :
    main id envNone "linux" 1 true none none none =
      MainResult.fatalExit ANDROID_BUILD_TOP_MSG
    ∧ main id envNone "linux" 1 true none none none ≠
        MainResult.helpExit := by
  refine ⟨rfl, fun h => ?_⟩
  have h0 : MainResult.fatalExit ANDROID_BUILD_TOP_MSG =
      MainResult.helpExit := h
  exact MainResult.noConfusion h0

/-- C6 (amended): whenever the root environment variable is set and
non-empty, `--help` exits zero with the help text, whatever the other
flags and the platform, and no subprocess invocation is produced. -/
theorem c6_help_exit (realpath : String → String) (env : Env)
    (r platform : String) (cpu_count : Nat)
    (host package_dir toolchain : Option String)
    (henv : env "ANDROID_BUILD_TOP" = some r) (hr : r ≠ "") :
    main realpath env platform cpu_count true host package_dir toolchain =
      MainResult.helpExit := by
  simp [main, parse_args, get_default_package_dir, android_path_ok henv hr]

/-- C6 witness: `--help` with the root set. -/
theorem c6_help_exit_witness :
    main id envSrc "freebsd" 1 true (some "nonsense") none (some "bogus") =
      MainResult.helpExit :=
  c6_help_exit id envSrc "/src" "freebsd" 1 (some "nonsense") none
    (some "bogus") rfl (by decide)

/-- C7: auto-detected hosts are exactly `linux` (for `linux`/`linux2`) and
`darwin`; every other platform identifier is an unsupported-host fatal
error and no invocation is assembled; `windows`/`windows64` are never
auto-detected but are accepted by `--host` validation. -/
theorem c7_host_default :
    get_default_host "linux" = Except.ok "linux"
    ∧ get_default_host "linux2" = Except.ok "linux"
    ∧ get_default_host "darwin" = Except.ok "darwin"
    ∧ (∀ p : String, p ≠ "linux" → p ≠ "linux2" → p ≠ "darwin" →
        get_default_host p = Except.error ("Unsupported host: " ++ p))
    ∧ (∀ p : String, get_default_host p ≠ Except.ok "windows")
    ∧ (∀ p : String, get_default_host p ≠ Except.ok "windows64")
    ∧ "windows" ∈ HOST_CHOICES
    ∧ "windows64" ∈ HOST_CHOICES
    ∧ (∀ (realpath : String → String) (env : Env) (r : String)
        (package_dir toolchain : Option String),
        env "ANDROID_BUILD_TOP" = some r → r ≠ "" →
        validChoice toolchain ALL_TOOLCHAINS = true →
        parse_args realpath env false (some "windows") package_dir
            toolchain =
          ParseResult.ok ⟨some "windows",
            package_dir.getD (realpath (pjoin r "out/ndk")), toolchain⟩)
    ∧ (∀ (realpath : String → String) (env : Env) (r platform : String)
        (cpu_count : Nat) (package_dir : Option String),
        env "ANDROID_BUILD_TOP" = some r → r ≠ "" →
        platform ≠ "linux" → platform ≠ "linux2" → platform ≠ "darwin" →
        main realpath env platform cpu_count false none package_dir none =
          MainResult.fatalExit ("Unsupported host: " ++ platform)) := by
  refine ⟨rfl, rfl, rfl, ?_, ?_, ?_, by decide, by decide, ?_, ?_⟩
  · intro p h1 h2 h3
    simp [get_default_host, h1, h2, h3]
  · intro p
    unfold get_default_host
    split_ifs
    · exact fun hh => absurd (Except.ok.inj hh) (by decide)
    · exact fun hh => absurd (Except.ok.inj hh) (by decide)
    · exact fun hh => Except.noConfusion hh
  · intro p
    unfold get_default_host
    split_ifs
    · exact fun hh => absurd (Except.ok.inj hh) (by decide)
    · exact fun hh => absurd (Except.ok.inj hh) (by decide)
    · exact fun hh => Except.noConfusion hh
  · intro realpath env r package_dir toolchain henv hr htc
    exact parse_args_ok henv hr realpath (some "windows") package_dir
      toolchain rfl htc
  · intro realpath env r platform cpu_count package_dir henv hr hp1 hp2 hp3
    have hhost : get_default_host platform =
        Except.error ("Unsupported host: " ++ platform) := by
      simp [get_default_host, hp1, hp2, hp3]
    simp [main,
      parse_args_ok henv hr realpath none package_dir none rfl rfl,
      mainCore, android_path_ok henv hr, hhost, ok_bind, error_bind]

/-- C7 witness: the quantified conjuncts applied at `freebsd`, at a
`--host=windows` parse with the root set, and at a `sunos5` run. -/
theorem c7_host_default_witness :
    get_default_host "freebsd" = Except.error "Unsupported host: freebsd"
    ∧ parse_args id envSrc false (some "windows") none none =
        ParseResult.ok ⟨some "windows", "/src/out/ndk", none⟩
    ∧ main id envSrc "sunos5" 2 false none none none =
        MainResult.fatalExit "Unsupported host: sunos5" := by
  obtain ⟨-, -, -, h4, -, -, -, -, h9, h10⟩ := c7_host_default
  refine ⟨?_, ?_, ?_⟩
  · exact h4 "freebsd" (by decide) (by decide) (by decide)
  · exact h9 id envSrc "/src" none none rfl (by decide) rfl
  · exact h10 id envSrc "/src" "sunos5" 2 none rfl (by decide) (by decide)
      (by decide) (by decide)

/-- C8: the child environment is the parent environment with exactly the
two keys `NDK_BUILDTOOLS_PATH` and `ANDROID_NDK_ROOT` overridden; every
other key has the parent's value (the parent map `env` itself is a pure
value here and is never mutated). -/
theorem c8_child_env (realpath : String → String) (env : Env)
    (r platform : String) (cpu_count : Nat) (hostv : String)
    (package_dir : Option String) (k : String)
    (henv : env "ANDROID_BUILD_TOP" = some r) (hr : r ≠ "")
    (hh : hostv ∈ HOST_CHOICES) :
    mainEnvAt realpath env platform cpu_count false (some hostv) package_dir
        none "NDK_BUILDTOOLS_PATH" =
      some (some (realpath (pjoin r "ndk/build/tools")))
    ∧ mainEnvAt realpath env platform cpu_count false (some hostv)
        package_dir none "ANDROID_NDK_ROOT" =
      some (some (realpath (pjoin r "ndk")))
    ∧ (k ≠ "NDK_BUILDTOOLS_PATH" → k ≠ "ANDROID_NDK_ROOT" →
        mainEnvAt realpath env platform cpu_count false (some hostv)
          package_dir none k = some (env k)) := by
  have hhost : validChoice (some hostv) HOST_CHOICES = true := by
    simp [validChoice, List.contains, List.elem_iff, hh]
  have hm :=
    main_run henv hr realpath platform cpu_count hostv package_dir hhost
  refine ⟨?_, ?_, fun hk1 hk2 => ?_⟩
  · simp [mainEnvAt, hm, runInv]
  · simp [mainEnvAt, hm, runInv]
  · simp [mainEnvAt, hm, runInv, hk1, hk2]

/-- C8 witness: with `HOME` set in the parent, the child sees `HOME`
unchanged and the two overridden keys pointing into the tree. -/
theorem c8_child_env_witness :
    mainEnvAt id envHome "x" 2 false (some "linux") none none
        "NDK_BUILDTOOLS_PATH" = some (some "/src/ndk/build/tools")
    ∧ mainEnvAt id envHome "x" 2 false (some "linux") none none
        "ANDROID_NDK_ROOT" = some (some "/src/ndk")
    ∧ mainEnvAt id envHome "x" 2 false (some "linux") none none "HOME" =
        some (some "/home/user") := by
  obtain ⟨h1, h2, h3⟩ := c8_child_env id envHome "/src" "x" 2 "linux" none
    "HOME" rfl (by decide) (by decide)
  exact ⟨h1, h2, h3 (by decide) (by decide)⟩

/-- C9: every derived path is the canonicalization of the resolved root
joined with a fixed relative string — generically for any relative
fragment, and specifically for the six fixed fragments the tool uses
(`toolchain/gdb` also being the working directory of the launched
subprocess). The model takes no script-location input: no path can
depend on the tool's own file location. -/
theorem c9_derived_paths (realpath : String → String) (env : Env)
    (r platform : String) (cpu_count : Nat)
    (henv : env "ANDROID_BUILD_TOP" = some r) (hr : r ≠ "") :
    (∀ p : String, android_path realpath env p =
      Except.ok (realpath (pjoin r p)))
    ∧ android_path realpath env "" = Except.ok (realpath (pjoin r ""))
    ∧ get_default_package_dir realpath env =
        Except.ok (realpath (pjoin r "out/ndk"))
    ∧ android_path realpath env "toolchain/gdb" =
        Except.ok (realpath (pjoin r "toolchain/gdb"))
    ∧ android_path realpath env "toolchain" =
        Except.ok (realpath (pjoin r "toolchain"))
    ∧ android_path realpath env "ndk" =
        Except.ok (realpath (pjoin r "ndk"))
    ∧ android_path realpath env "ndk/build/tools" =
        Except.ok (realpath (pjoin r "ndk/build/tools"))
    ∧ mainCwd realpath env platform cpu_count false (some "linux") none
        none = some (realpath (pjoin r "toolchain/gdb")) := by
  refine ⟨android_path_ok henv hr realpath,
    android_path_ok henv hr realpath "",
    android_path_ok henv hr realpath "out/ndk",
    android_path_ok henv hr realpath "toolchain/gdb",
    android_path_ok henv hr realpath "toolchain",
    android_path_ok henv hr realpath "ndk",
    android_path_ok henv hr realpath "ndk/build/tools", ?_⟩
  simp [mainCwd, main_run henv hr realpath platform cpu_count "linux" none
    rfl, runInv]

/-- C9 witness: the concrete `/src` tree. -/
theorem c9_derived_paths_witness :
    android_path id envSrc "ndk/build/tools" = Except.ok "/src/ndk/build/tools"
    ∧ mainCwd id envSrc "linux" 1 false (some "linux") none none =
        some "/src/toolchain/gdb" := by
  obtain ⟨-, -, -, -, -, -, h7, h8⟩ :=
    c9_derived_paths id envSrc "/src" "linux" 1 rfl (by decide)
  exact ⟨h7, h8⟩

/-- C10: a user-supplied `--package-dir` value lands verbatim in the
`--package-dir=` argument (the statement holds for every `realpath`, so no
canonicalization or joining can have been applied to it), whereas with the
flag absent the argument carries the canonicalized `<root>/out/ndk`
default. -/
theorem c10_package_dir (realpath : String → String) (env : Env)
    (r platform : String) (cpu_count : Nat) (hostv v : String)
    (henv : env "ANDROID_BUILD_TOP" = some r) (hr : r ≠ "")
    (hh : hostv ∈ HOST_CHOICES) :
    (mainCmd realpath env platform cpu_count false (some hostv) (some v)
        none).map (fun l => l[6]?) = some (some ("--package-dir=" ++ v))
    ∧ (mainCmd realpath env platform cpu_count false (some hostv) none
        none).map (fun l => l[6]?) =
      some (some ("--package-dir=" ++ realpath (pjoin r "out/ndk")))
    ∧ get_default_package_dir realpath env =
        Except.ok (realpath (pjoin r "out/ndk")) := by
  have hhost : validChoice (some hostv) HOST_CHOICES = true := by
    simp [validChoice, List.contains, List.elem_iff, hh]
  have hm1 :=
    main_run henv hr realpath platform cpu_count hostv (some v) hhost
  have hm2 := main_run henv hr realpath platform cpu_count hostv none hhost
  refine ⟨?_, ?_, android_path_ok henv hr realpath "out/ndk"⟩
  · simp [mainCmd, hm1, runInv]
  · simp [mainCmd, hm2, runInv]

/-- C10 witness: a relative, un-canonicalized user value `../weird//dir`
is passed through verbatim while the default is `/src/out/ndk`. -/
theorem c10_package_dir_witness :
    (mainCmd id envSrc "p" 3 false (some "linux") (some "../weird//dir")
        none).map (fun l => l[6]?) =
      some (some "--package-dir=../weird//dir")
    ∧ (mainCmd id envSrc "p" 3 false (some "linux") none none).map
        (fun l => l[6]?) = some (some "--package-dir=/src/out/ndk") := by
  obtain ⟨h1, h2, -⟩ := c10_package_dir id envSrc "/src" "p" 3 "linux"
    "../weird//dir" rfl (by decide) (by decide)
  exact ⟨h1, h2⟩

end Build
